import Mathlib

/-
  Shallow embedding of the terraform-provider-gotify core
  (internal/provider/provider.go, application_resource.go,
  application_data_source.go).

  Conventions of the embedding:
  - Terraform framework `types.String` values are modelled as plain `String`s
    holding the underlying value; the Go code's `strings.Trim(x.String(), "\"")`
    recovers exactly that underlying value for values without boundary quote
    characters, so the trim/quote round-trip is modelled as the identity.
  - Every HTTP exchange is one call to a `transport` oracle mapping the request
    the code builds to either a transport-level failure (`http.Client.Do`
    returning an error; `http.NewRequest` construction failures are subsumed)
    or a response carrying a status code, the raw body string used in
    diagnostics, and the JSON-decoded payload where the code decodes one.
  - Each operation returns the list of HTTP requests it issued, the error
    diagnostics it added (the code only ever calls `AddError`), and the last
    value written to `resp.State` (`none` when `State.Set` was never reached).
-/

deriving instance DecidableEq for Except

namespace Gotify

/-- Error diagnostic as added by `resp.Diagnostics.AddError(summary, detail)`. -/
structure Diagnostic where
  summary : String
  detail : String
deriving Repr, DecidableEq

/-- Provider configuration model (provider.go `GotifyProviderModel`):
connection auth token and base URL. -/
structure GotifyProviderModel where
  token : String
  url : String
deriving Repr, DecidableEq

/-- Managed resource model (application_resource.go `ApplicationResourceModel`). -/
structure ApplicationResourceModel where
  name : String
  description : String
  priority : String
  id : String
  token : String
deriving Repr, DecidableEq

/-- Data source model (application_data_source.go `ApplicationDataSourceModel`). -/
structure ApplicationDataSourceModel where
  name : String
  description : String
  priority : String
  id : String
  token : String
deriving Repr, DecidableEq

/-- JSON body sent by Create and Update:
`map[string]interface... of defaultPriority, description, name`. -/
structure RequestBody where
  defaultPriority : Int
  description : String
  name : String
deriving Repr, DecidableEq

/-- An outgoing HTTP request as the provider builds it: method, URL, the two
headers it sets (Content-Type and X-Gotify-Key), and the JSON body if any. -/
structure HttpRequest where
  method : String
  url : String
  contentType : String
  gotifyKey : String
  body : Option RequestBody
deriving Repr, DecidableEq

/-- Decoded 200-response body of Create (application_resource.go `Response`). -/
structure CreateRespBody where
  id : Int
  token : String
  internal : Bool
deriving Repr, DecidableEq

/-- One entry of the remote listing (application_data_source.go `JsonReponse`
element). The opaque, unused `lastUsed` field is omitted. -/
structure RemoteApplication where
  defaultPriority : Int
  description : String
  id : Int
  image : String
  internal : Bool
  name : String
  token : String
deriving Repr, DecidableEq

/-- Result of one HTTP exchange: either `client.Do` fails with an error
message, or a response arrives with a status code, the raw body string, and
the decoded payload of type `β` where the operation decodes one. -/
inductive TransportResult (β : Type) where
  | transportErr (msg : String)
  | response (statusCode : Nat) (bodyString : String) (decoded : β)

/-- Outcome of one resource or data-source operation: the HTTP requests issued,
the error diagnostics added, and the last value written to `resp.State`
(`none` when no `State.Set` call was reached). -/
structure OpOutcome (σ : Type) where
  requests : List HttpRequest
  diagnostics : List Diagnostic
  respState : Option σ
deriving Repr, DecidableEq

/-- Outcome of provider `Configure`: the probe requests issued, the error
diagnostics, and the stored process-wide `Config` (with the shared client
exposed) when validation succeeded. -/
structure ConfigureOutcome where
  requests : List HttpRequest
  diagnostics : List Diagnostic
  storedConfig : Option GotifyProviderModel
deriving Repr, DecidableEq

/-- Value of a string of decimal digits. -/
def digitsVal (l : List Char) : Nat :=
  l.foldl (fun a c => a * 10 + (c.toNat - 48)) 0

/-- Model of Go `strconv.Atoi`: an optional single leading sign followed by one
or more ASCII digits, rejecting values outside the 64-bit int range; the error
strings mirror Go's. -/
def atoiE (s : String) : Except String Int :=
  let (neg, ds) :=
    match s.data with
    | '-' :: rest => (true, rest)
    | '+' :: rest => (false, rest)
    | l => (false, l)
  if ds.isEmpty || !ds.all Char.isDigit then
    Except.error ("strconv.Atoi: parsing \"" ++ s ++ "\": invalid " ++ "syntax")
  else
    let v : Int := if neg then -(digitsVal ds : Int) else (digitsVal ds : Int)
    if v < -(2 ^ 63) || 2 ^ 63 - 1 < v then
      Except.error ("strconv.Atoi: parsing \"" ++ s ++ "\": value out of range")
    else
      Except.ok v

/-- GET request to `<url>/application` with the configuration token, as built
both by the Configure probe and by the data-source Read. -/
def getAppsReq (cfg : GotifyProviderModel) : HttpRequest :=
  { method := "GET", url := cfg.url ++ "/application",
    contentType := "application/json", gotifyKey := cfg.token, body := none }

/-- POST request built by Create: `POST <url>/application` with the connection
token and the JSON body of parsed priority, description and name. -/
def createReq (cfg : GotifyProviderModel) (priority : Int)
    (data : ApplicationResourceModel) : HttpRequest :=
  { method := "POST", url := cfg.url ++ "/application",
    contentType := "application/json", gotifyKey := cfg.token,
    body := some { defaultPriority := priority,
                   description := data.description, name := data.name } }

/-- PUT request built by Update: `PUT <url>/application/<id>` (the code's
Sprintf of url, "application" and id joined by slashes) with the connection
token and the same body shape as Create. -/
def updateReq (cfg : GotifyProviderModel) (priority : Int)
    (data : ApplicationResourceModel) : HttpRequest :=
  { method := "PUT", url := cfg.url ++ "/application/" ++ data.id,
    contentType := "application/json", gotifyKey := cfg.token,
    body := some { defaultPriority := priority,
                   description := data.description, name := data.name } }

/-- DELETE request built by Delete: `DELETE <url>/application/<id>` with the
connection token and no body. -/
def deleteReq (cfg : GotifyProviderModel)
    (data : ApplicationResourceModel) : HttpRequest :=
  { method := "DELETE", url := cfg.url ++ "/application/" ++ data.id,
    contentType := "application/json", gotifyKey := cfg.token, body := none }

/-- Provider `Configure` (provider.go lines 60-106): probes
`GET <url>/application`; transport failure, 401 and other non-200 each abort
with their diagnostic; on 200 the settings are stored as the process-wide
`Config` and the shared client is exposed. -/
def providerConfigure (data : GotifyProviderModel)
    (transport : HttpRequest → TransportResult Unit) : ConfigureOutcome :=
  match transport (getAppsReq data) with
  | .transportErr msg =>
      { requests := [getAppsReq data],
        diagnostics := [⟨"Can't contact Gotify Instance", msg⟩],
        storedConfig := none }
  | .response statusCode _ _ =>
      if statusCode == 401 then
        { requests := [getAppsReq data],
          diagnostics := [⟨"Not Allowed", "Bad token (?)"⟩],
          storedConfig := none }
      else if statusCode != 200 then
        { requests := [getAppsReq data],
          diagnostics := [⟨"API Error when contacting Gotify instance",
                           "Received a non-200 response code"⟩],
          storedConfig := none }
      else
        { requests := [getAppsReq data], diagnostics := [],
          storedConfig := some data }

/-- Resource `Create` (application_resource.go lines 115-200): parse priority
(failing before any HTTP call), POST the body, map transport failure / 401 /
other non-200 / body-decode failure to diagnostics, and on success write the
plan with the decoded id (re-stringified) and token into state. -/
def appCreate (cfg : GotifyProviderModel) (data : ApplicationResourceModel)
    (transport : HttpRequest → TransportResult (Except String CreateRespBody)) :
    OpOutcome ApplicationResourceModel :=
  match atoiE data.priority with
  | .error e =>
      { requests := [], diagnostics := [⟨"Priority cannot be parsed as Int", e⟩],
        respState := none }
  | .ok priority =>
      match transport (createReq cfg priority data) with
      | .transportErr msg =>
          { requests := [createReq cfg priority data],
            diagnostics := [⟨"API Error when contacting Gotify instance", msg⟩],
            respState := none }
      | .response statusCode bodyString decoded =>
          if statusCode == 401 then
            { requests := [createReq cfg priority data],
              diagnostics := [⟨"Not Allowed", "Bad token (?) : " ++ bodyString⟩],
              respState := none }
          else if statusCode != 200 then
            { requests := [createReq cfg priority data],
              diagnostics := [⟨"API Error when contacting Gotify instance",
                "Received a " ++ toString statusCode ++ " response code : " ++ bodyString⟩],
              respState := none }
          else
            match decoded with
            | .error _ =>
                { requests := [createReq cfg priority data],
                  diagnostics := [⟨"API Error when contacting Gotify instance",
                                   "Failed to decode response body"⟩],
                  respState := none }
            | .ok respData =>
                { requests := [createReq cfg priority data], diagnostics := [],
                  respState := some { data with
                                      id := toString respData.id,
                                      token := respData.token } }

/-- Resource `Update` (application_resource.go lines 214-285): the plan is
written to `resp.State` (line 223) before priority validation and before the
HTTP call, so every later outcome returns the planned data as state; then
priority is parsed (failing without any HTTP call), the PUT is issued, and
transport failure / 401 / other non-200 map to diagnostics; no response body
is decoded on success. -/
def appUpdate (cfg : GotifyProviderModel) (data : ApplicationResourceModel)
    (transport : HttpRequest → TransportResult Unit) :
    OpOutcome ApplicationResourceModel :=
  match atoiE data.priority with
  | .error e =>
      { requests := [], diagnostics := [⟨"Priority cannot be parsed as Int", e⟩],
        respState := some data }
  | .ok priority =>
      match transport (updateReq cfg priority data) with
      | .transportErr msg =>
          { requests := [updateReq cfg priority data],
            diagnostics := [⟨"API Error when contacting Gotify instance", msg⟩],
            respState := some data }
      | .response statusCode bodyString _ =>
          if statusCode == 401 then
            { requests := [updateReq cfg priority data],
              diagnostics := [⟨"Not Allowed", "Bad token (?) : " ++ bodyString⟩],
              respState := some data }
          else if statusCode != 200 then
            { requests := [updateReq cfg priority data],
              diagnostics := [⟨"API Error when contacting Gotify instance",
                "Received a " ++ toString statusCode ++ " response code : " ++ bodyString⟩],
              respState := some data }
          else
            { requests := [updateReq cfg priority data], diagnostics := [],
              respState := some data }

/-- Resource `Delete` (application_resource.go lines 287-335): issues the
DELETE, maps transport failure / 401 / other non-200 to diagnostics, and on
success writes the (unchanged) record to `resp.State` (line 333). -/
def appDelete (cfg : GotifyProviderModel) (data : ApplicationResourceModel)
    (transport : HttpRequest → TransportResult Unit) :
    OpOutcome ApplicationResourceModel :=
  match transport (deleteReq cfg data) with
  | .transportErr msg =>
      { requests := [deleteReq cfg data],
        diagnostics := [⟨"API Error when contacting Gotify instance", msg⟩],
        respState := none }
  | .response statusCode bodyString _ =>
      if statusCode == 401 then
        { requests := [deleteReq cfg data],
          diagnostics := [⟨"Not Allowed", "Bad token (?) : " ++ bodyString⟩],
          respState := none }
      else if statusCode != 200 then
        { requests := [deleteReq cfg data],
          diagnostics := [⟨"API Error when contacting Gotify instance",
            "Received a " ++ toString statusCode ++ " response code : " ++ bodyString⟩],
          respState := none }
      else
        { requests := [deleteReq cfg data], diagnostics := [],
          respState := some data }

/-- Data-source model populated from one remote entry, as the loop body of the
data-source Read assigns it (all five fields overwritten). -/
def modelOfEntry (app : RemoteApplication) : ApplicationDataSourceModel :=
  { name := app.name, description := app.description,
    priority := toString app.defaultPriority, id := toString app.id,
    token := app.token }

/-- One iteration of the data-source Read scan (application_data_source.go
lines 163-173): when the entry's id stringifies equal to the requested id, the
found flag is set and every field of the accumulator is overwritten from the
entry; otherwise the accumulator is kept. -/
def scanStep (id : String) (acc : Bool × ApplicationDataSourceModel)
    (app : RemoteApplication) : Bool × ApplicationDataSourceModel :=
  if toString app.id == id then
    (true, { acc.2 with
             name := app.name, description := app.description,
             id := toString app.id, priority := toString app.defaultPriority,
             token := app.token })
  else acc

/-- Data-source `Read` (application_data_source.go lines 95-192): GET the full
listing with the stored configuration, map transport failure / 401 / other
non-200 / decode failure to diagnostics, scan the whole collection letting
later id matches overwrite earlier ones, fail with Not-Found when nothing
matched, and otherwise write the populated model to state. -/
def appDataSourceRead (cfg : GotifyProviderModel)
    (data : ApplicationDataSourceModel)
    (transport : HttpRequest → TransportResult (Except String (List RemoteApplication))) :
    OpOutcome ApplicationDataSourceModel :=
  match transport (getAppsReq cfg) with
  | .transportErr msg =>
      { requests := [getAppsReq cfg],
        diagnostics := [⟨"API Error when contacting Gotify instance", msg⟩],
        respState := none }
  | .response statusCode bodyString decoded =>
      if statusCode == 401 then
        { requests := [getAppsReq cfg],
          diagnostics := [⟨"Not Allowed", "Bad token (?) : " ++ bodyString⟩],
          respState := none }
      else if statusCode != 200 then
        { requests := [getAppsReq cfg],
          diagnostics := [⟨"API Error when contacting Gotify instance",
            "Received a " ++ toString statusCode ++ " response code : " ++ bodyString⟩],
          respState := none }
      else
        match decoded with
        | .error e =>
            { requests := [getAppsReq cfg],
              diagnostics := [⟨"API Error when contacting Gotify instance", e⟩],
              respState := none }
        | .ok respData =>
            if !(respData.foldl (scanStep data.id) (false, data)).1 then
              { requests := [getAppsReq cfg],
                diagnostics := [⟨"API Error", "No application found with this id"⟩],
                respState := none }
            else
              { requests := [getAppsReq cfg], diagnostics := [],
                respState := some (respData.foldl (scanStep data.id) (false, data)).2 }

/-- Modelled from the spec: the host environment (the configuration-language
runtime, outside this repository) "persists returned state"; when an
operation returned no state of its own, the prior persisted state is kept. -/
def persistAfter (prior : Option ApplicationResourceModel)
    (out : OpOutcome ApplicationResourceModel) : Option ApplicationResourceModel :=
  match out.respState with
  | some s => some s
  | none => prior

/-- Modelled from the spec: "On success the record is removed from persisted
state" — the plugin-framework host (outside this repository) discards the
resource state after a Delete that reported no error, and keeps the prior
record when the Delete errored. -/
def persistAfterDelete (prior : Option ApplicationResourceModel)
    (out : OpOutcome ApplicationResourceModel) : Option ApplicationResourceModel :=
  if out.diagnostics.isEmpty then none else prior

/-- Boolean prefix test on character lists. -/
def listPrefixOf : List Char → List Char → Bool
  | [], _ => true
  | _ :: _, [] => false
  | a :: as, b :: bs => a == b && listPrefixOf as bs

/-- Boolean test for `needle` occurring anywhere inside `hay`. -/
def containsSub (needle : List Char) : List Char → Bool
  | [] => listPrefixOf needle []
  | c :: t => listPrefixOf needle (c :: t) || containsSub needle t

/-- Containment of `needle` as a contiguous substring of `hay`. -/
def strContains (needle hay : String) : Bool :=
  containsSub needle.data hay.data

end Gotify

namespace Gotify

/-- Witness fixture: a remote configuration. -/
def cfgFix : GotifyProviderModel := { token := "conn-token", url := "http://gotify.local" }

/-- Witness fixture: the spec's example Create input. -/
def appFix : ApplicationResourceModel :=
  { name := "app1", description := "d", priority := "3", id := "", token := "" }

/-- Witness fixture: a transport answering the spec's example Create response. -/
def tCreateFix : HttpRequest → TransportResult (Except String CreateRespBody) :=
  fun _ => TransportResult.response 200 "" (Except.ok ⟨4, "tkn", false⟩)

/-- C5: for every priority string that Atoi rejects, Create and Update add the
Validation diagnostic "Priority cannot be parsed as Int" carrying Atoi's error
and issue no HTTP request at all. -/
theorem bad_priority_validation_no_request (cfg : GotifyProviderModel)
    (data : ApplicationResourceModel)
    (tC : HttpRequest → TransportResult (Except String CreateRespBody))
    (tU : HttpRequest → TransportResult Unit) (e : String)
    (hp : atoiE data.priority = Except.error e) :
    (appCreate cfg data tC).requests = [] ∧
    (appCreate cfg data tC).diagnostics = [⟨"Priority cannot be parsed as Int", e⟩] ∧
    (appUpdate cfg data tU).requests = [] ∧
    (appUpdate cfg data tU).diagnostics = [⟨"Priority cannot be parsed as Int", e⟩] := by
  unfold appCreate appUpdate
  rw [hp]
  exact ⟨rfl, rfl, rfl, rfl⟩

/-- Witness for C5 at the concrete non-numeric priority "abc". -/
theorem bad_priority_validation_no_request_witness :
    (appCreate cfgFix { appFix with priority := "abc" } tCreateFix).requests = [] ∧
    (appCreate cfgFix { appFix with priority := "abc" } tCreateFix).diagnostics =
      [⟨"Priority cannot be parsed as Int",
        "strconv.Atoi: parsing \"abc\": invalid " ++ "syntax"⟩] ∧
    (appUpdate cfgFix { appFix with priority := "abc" }
        (fun _ => TransportResult.response 200 "" ())).requests = [] ∧
    (appUpdate cfgFix { appFix with priority := "abc" }
        (fun _ => TransportResult.response 200 "" ())).diagnostics =
      [⟨"Priority cannot be parsed as Int",
        "strconv.Atoi: parsing \"abc\": invalid " ++ "syntax"⟩] :=
  bad_priority_validation_no_request cfgFix { appFix with priority := "abc" }
    tCreateFix (fun _ => TransportResult.response 200 "" ()) _ rfl

/-- C4: Create against a 200 response whose body decodes persists a state whose
id is the stringified decoded id and whose token is the decoded token, all
other fields equal to the submitted input. -/
theorem create_success_state (cfg : GotifyProviderModel)
    (data : ApplicationResourceModel)
    (transport : HttpRequest → TransportResult (Except String CreateRespBody))
    (bodyString : String) (respData : CreateRespBody) (n : Int)
    (hp : atoiE data.priority = Except.ok n)
    (ht : transport (createReq cfg n data)
        = TransportResult.response 200 bodyString (Except.ok respData)) :
    (appCreate cfg data transport).diagnostics = [] ∧
    persistAfter none (appCreate cfg data transport) =
      some { name := data.name, description := data.description,
             priority := data.priority, id := toString respData.id,
             token := respData.token } := by
  unfold appCreate persistAfter
  rw [hp]
  dsimp only
  rw [ht]
  simp

/-- Witness for C4: the spec's example scenario — Create of
name "app1", description "d", priority "3" against a service answering
id 4, token "tkn", internal false persists exactly
name "app1", description "d", priority "3", id "4", token "tkn". -/
theorem create_success_state_witness :
    (appCreate cfgFix appFix tCreateFix).diagnostics = [] ∧
    persistAfter none (appCreate cfgFix appFix tCreateFix) =
      some { name := "app1", description := "d", priority := "3",
             id := "4", token := "tkn" } :=
  create_success_state cfgFix appFix tCreateFix "" ⟨4, "tkn", false⟩ 3 rfl rfl

/-- C3: Delete against a 200 response issues exactly one HTTP request, the
DELETE on `<base>/application/<id>` built from the stored identifier, reports
no error, and the host-side persisted state afterwards is absent. -/
theorem delete_success_removes_state (cfg : GotifyProviderModel)
    (data : ApplicationResourceModel) (prior : Option ApplicationResourceModel)
    (transport : HttpRequest → TransportResult Unit) (bodyString : String)
    (ht : transport (deleteReq cfg data)
        = TransportResult.response 200 bodyString ()) :
    (appDelete cfg data transport).requests =
      [{ method := "DELETE", url := cfg.url ++ "/application/" ++ data.id,
         contentType := "application/json", gotifyKey := cfg.token,
         body := none }] ∧
    (appDelete cfg data transport).diagnostics = [] ∧
    persistAfterDelete prior (appDelete cfg data transport) = none := by
  unfold appDelete persistAfterDelete
  rw [ht]
  simp [deleteReq]

/-- Witness for C3 at a concrete stored record with id "7". -/
theorem delete_success_removes_state_witness :
    (appDelete cfgFix { appFix with id := "7" }
        (fun _ => TransportResult.response 200 "" ())).requests =
      [{ method := "DELETE", url := "http://gotify.local/application/7",
         contentType := "application/json", gotifyKey := "conn-token",
         body := none }] ∧
    (appDelete cfgFix { appFix with id := "7" }
        (fun _ => TransportResult.response 200 "" ())).diagnostics = [] ∧
    persistAfterDelete (some { appFix with id := "7" })
        (appDelete cfgFix { appFix with id := "7" }
          (fun _ => TransportResult.response 200 "" ())) = none :=
  delete_success_removes_state cfgFix { appFix with id := "7" }
    (some { appFix with id := "7" }) (fun _ => TransportResult.response 200 "" ())
    "" rfl

end Gotify

namespace Gotify

/-- Create never reaches `State.Set` on a path that added a diagnostic: its
returned state is `none` or its diagnostics are empty. -/
lemma appCreate_diag_or_state (cfg : GotifyProviderModel)
    (data : ApplicationResourceModel)
    (t : HttpRequest → TransportResult (Except String CreateRespBody)) :
    (appCreate cfg data t).diagnostics = [] ∨
    (appCreate cfg data t).respState = none := by
  unfold appCreate
  split
  · exact Or.inr rfl
  · split
    · exact Or.inr rfl
    · split
      · exact Or.inr rfl
      · split
        · exact Or.inr rfl
        · split
          · exact Or.inr rfl
          · exact Or.inl rfl

/-- Delete never reaches `State.Set` on a path that added a diagnostic: its
returned state is `none` or its diagnostics are empty. -/
lemma appDelete_diag_or_state (cfg : GotifyProviderModel)
    (data : ApplicationResourceModel)
    (t : HttpRequest → TransportResult Unit) :
    (appDelete cfg data t).diagnostics = [] ∨
    (appDelete cfg data t).respState = none := by
  unfold appDelete
  split
  · exact Or.inr rfl
  · split
    · exact Or.inr rfl
    · split
      · exact Or.inr rfl
      · exact Or.inl rfl

/-- Update writes the plan to `resp.State` before validation and before the
HTTP call, so its returned state is the plan on every path. -/
lemma appUpdate_respState (cfg : GotifyProviderModel)
    (data : ApplicationResourceModel)
    (t : HttpRequest → TransportResult Unit) :
    (appUpdate cfg data t).respState = some data := by
  unfold appUpdate
  split
  · rfl
  · split
    · rfl
    · split
      · rfl
      · split
        · rfl
        · rfl

/-- C1 is false as stated: an Update that fails validation (non-numeric
priority) has already written the plan to the returned state, so the persisted
state after the failed operation is the plan, not the prior record. -/
theorem update_failure_mutates_state :
    ((appUpdate cfgFix
        { name := "new", description := "nd", priority := "abc", id := "7", token := "at" }
        (fun _ => TransportResult.transportErr "unreachable")).diagnostics ≠ []) ∧
    persistAfter
        (some { name := "old", description := "od", priority := "1", id := "7", token := "at" })
        (appUpdate cfgFix
          { name := "new", description := "nd", priority := "abc", id := "7", token := "at" }
          (fun _ => TransportResult.transportErr "unreachable")) ≠
      some { name := "old", description := "od", priority := "1", id := "7", token := "at" } := by
  constructor
  · intro h
    exact absurd h (by decide)
  · intro h
    exact absurd h (by decide)

/-- C1 (amended): a failed Create and a failed Delete leave the prior persisted
state untouched, but Update stores the submitted plan into the returned state
before validation and before the HTTP call, so after any Update — failed or
not — the persisted state is the plan rather than the prior record. -/
theorem failed_ops_state_disposition
    (prior : Option ApplicationResourceModel) (cfg : GotifyProviderModel)
    (dataC dataD planU : ApplicationResourceModel)
    (tC : HttpRequest → TransportResult (Except String CreateRespBody))
    (tD tU : HttpRequest → TransportResult Unit)
    (hC : (appCreate cfg dataC tC).diagnostics ≠ [])
    (hD : (appDelete cfg dataD tD).diagnostics ≠ []) :
    persistAfter prior (appCreate cfg dataC tC) = prior ∧
    persistAfter prior (appDelete cfg dataD tD) = prior ∧
    persistAfter prior (appUpdate cfg planU tU) = some planU := by
  refine ⟨?_, ?_, ?_⟩
  · rcases appCreate_diag_or_state cfg dataC tC with h | h
    · exact absurd h hC
    · unfold persistAfter; rw [h]
  · rcases appDelete_diag_or_state cfg dataD tD with h | h
    · exact absurd h hD
    · unfold persistAfter; rw [h]
  · unfold persistAfter; rw [appUpdate_respState]

/-- Witness for the amended C1: a Create rejected with 500, a Delete rejected
with 401, and an Update failing validation, against a concrete prior record. -/
theorem failed_ops_state_disposition_witness :
    persistAfter (some { appFix with id := "7" })
        (appCreate cfgFix appFix
          (fun _ => TransportResult.response 500 "boom" (Except.error "no body"))) =
      some { appFix with id := "7" } ∧
    persistAfter (some { appFix with id := "7" })
        (appDelete cfgFix { appFix with id := "7" }
          (fun _ => TransportResult.response 401 "denied" ())) =
      some { appFix with id := "7" } ∧
    persistAfter (some { appFix with id := "7" })
        (appUpdate cfgFix { appFix with priority := "abc", id := "7" }
          (fun _ => TransportResult.transportErr "unreachable")) =
      some { appFix with priority := "abc", id := "7" } :=
  failed_ops_state_disposition (some { appFix with id := "7" }) cfgFix
    appFix { appFix with id := "7" } { appFix with priority := "abc", id := "7" }
    (fun _ => TransportResult.response 500 "boom" (Except.error "no body"))
    (fun _ => TransportResult.response 401 "denied" ())
    (fun _ => TransportResult.transportErr "unreachable")
    (by decide) (by decide)

/-- C6 is false as stated: for the probe status 500 the Configure diagnostic is
the fixed text "Received a non-200 response code", which does not contain the
numeric status code. -/
theorem configure_non200_lacks_status_code :
    (providerConfigure cfgFix (fun _ => TransportResult.response 500 "" ())).diagnostics =
      [⟨"API Error when contacting Gotify instance",
        "Received a non-200 response code"⟩] ∧
    ((providerConfigure cfgFix (fun _ => TransportResult.response 500 "" ())).diagnostics.all
      (fun d => !(strContains "500" d.summary || strContains "500" d.detail))) = true ∧
    (providerConfigure cfgFix (fun _ => TransportResult.response 500 "" ())).storedConfig
      = none := by
  refine ⟨by decide, ?_, by decide⟩
  decide

/-- C6 (amended): for every probe status other than 200 and 401, Configure
fails with the API-error diagnostic whose detail is the fixed text
"Received a non-200 response code" (the numeric status code is not included),
and stores no configuration. -/
theorem configure_non200_fixed_message (data : GotifyProviderModel)
    (transport : HttpRequest → TransportResult Unit)
    (statusCode : Nat) (bodyString : String)
    (h200 : statusCode ≠ 200) (h401 : statusCode ≠ 401)
    (ht : transport (getAppsReq data)
        = TransportResult.response statusCode bodyString ()) :
    (providerConfigure data transport).diagnostics =
      [⟨"API Error when contacting Gotify instance",
        "Received a non-200 response code"⟩] ∧
    (providerConfigure data transport).storedConfig = none := by
  unfold providerConfigure
  rw [ht]
  simp [h200, h401]

/-- Witness for the amended C6 at the concrete probe status 503. -/
theorem configure_non200_fixed_message_witness :
    (providerConfigure cfgFix (fun _ => TransportResult.response 503 "oops" ())).diagnostics =
      [⟨"API Error when contacting Gotify instance",
        "Received a non-200 response code"⟩] ∧
    (providerConfigure cfgFix (fun _ => TransportResult.response 503 "oops" ())).storedConfig
      = none :=
  configure_non200_fixed_message cfgFix
    (fun _ => TransportResult.response 503 "oops" ()) 503 "oops"
    (by decide) (by decide) rfl

end Gotify

namespace Gotify

/-- A scan step on a matching entry sets the found flag and overwrites every
model field from the entry. -/
lemma scanStep_pos {id : String} (acc : Bool × ApplicationDataSourceModel)
    {app : RemoteApplication} (h : (toString app.id == id) = true) :
    scanStep id acc app = (true, modelOfEntry app) := by
  unfold scanStep modelOfEntry
  rw [if_pos h]

/-- A scan step on a non-matching entry keeps the accumulator. -/
lemma scanStep_neg {id : String} (acc : Bool × ApplicationDataSourceModel)
    {app : RemoteApplication} (h : (toString app.id == id) = false) :
    scanStep id acc app = acc := by
  unfold scanStep
  rw [h]
  simp

/-- The Read scan resolves to the last matching entry of the collection; the
initial accumulator survives only when no entry matches. -/
lemma foldl_scanStep (id : String) (l : List RemoteApplication)
    (acc : Bool × ApplicationDataSourceModel) :
    l.foldl (scanStep id) acc =
      match (l.filter (fun a => toString a.id == id)).getLast? with
      | none => acc
      | some e => (true, modelOfEntry e) := by
  induction l using List.reverseRecOn with
  | nil => rfl
  | append_singleton t a ih =>
      rw [List.foldl_append, ih, List.filter_append]
      cases hpa : (toString a.id == id) with
      | true =>
          rw [List.foldl_cons, List.foldl_nil, scanStep_pos _ hpa]
          simp [hpa, List.getLast?_concat]
      | false =>
          rw [List.foldl_cons, List.foldl_nil, scanStep_neg _ hpa]
          simp [hpa]

/-- C2: when the collection holds two or more entries whose integer id
stringifies to the requested identifier, the lookup succeeds and the state is
populated from the matching entry appearing latest in the collection order. -/
theorem lookup_last_match_wins (cfg : GotifyProviderModel)
    (d : ApplicationDataSourceModel) (apps : List RemoteApplication)
    (bodyString : String)
    (h2 : 2 ≤ (apps.filter (fun a => toString a.id == d.id)).length) :
    (appDataSourceRead cfg d
        (fun _ => TransportResult.response 200 bodyString (Except.ok apps))).diagnostics
      = [] ∧
    (appDataSourceRead cfg d
        (fun _ => TransportResult.response 200 bodyString (Except.ok apps))).respState
      = ((apps.filter (fun a => toString a.id == d.id)).getLast?).map modelOfEntry := by
  have hne : apps.filter (fun a => toString a.id == d.id) ≠ [] := by
    intro h
    rw [h] at h2
    simp at h2
  obtain ⟨e, he⟩ : ∃ e,
      (apps.filter (fun a => toString a.id == d.id)).getLast? = some e := by
    cases hL : (apps.filter (fun a => toString a.id == d.id)).getLast? with
    | none => exact absurd (List.getLast?_eq_none_iff.mp hL) hne
    | some e => exact ⟨e, rfl⟩
  unfold appDataSourceRead
  dsimp only
  rw [foldl_scanStep, he]
  exact ⟨rfl, rfl⟩

/-- Witness for C2: two entries with id 5; the outcome carries the name,
description, priority and token of the second. -/
theorem lookup_last_match_wins_witness :
    (appDataSourceRead cfgFix ⟨"", "", "", "5", ""⟩
        (fun _ => TransportResult.response 200 ""
          (Except.ok [⟨1, "d1", 5, "", false, "first", "t1"⟩,
                      ⟨2, "d2", 5, "", false, "second", "t2"⟩]))).diagnostics = [] ∧
    (appDataSourceRead cfgFix ⟨"", "", "", "5", ""⟩
        (fun _ => TransportResult.response 200 ""
          (Except.ok [⟨1, "d1", 5, "", false, "first", "t1"⟩,
                      ⟨2, "d2", 5, "", false, "second", "t2"⟩]))).respState =
      (([⟨1, "d1", 5, "", false, "first", "t1"⟩,
         ⟨2, "d2", 5, "", false, "second", "t2"⟩] :
          List RemoteApplication).filter
        (fun a => toString a.id == "5")).getLast?.map modelOfEntry :=
  lookup_last_match_wins cfgFix ⟨"", "", "", "5", ""⟩
    [⟨1, "d1", 5, "", false, "first", "t1"⟩, ⟨2, "d2", 5, "", false, "second", "t2"⟩]
    "" (by decide)

/-- C9: two lookups against the same transport with the same identifier but
arbitrary optional filter fields (name, description, priority — and the
computed token) produce identical outcomes. -/
theorem lookup_ignores_optional_fields (cfg : GotifyProviderModel)
    (d1 d2 : ApplicationDataSourceModel)
    (t : HttpRequest → TransportResult (Except String (List RemoteApplication)))
    (hid : d1.id = d2.id) :
    appDataSourceRead cfg d1 t = appDataSourceRead cfg d2 t := by
  unfold appDataSourceRead
  rw [hid]
  cases t (getAppsReq cfg) with
  | transportErr m => rfl
  | response s b dec =>
      cases hb : (s == 401) with
      | true => simp [hb]
      | false =>
          cases hn : (s != 200) with
          | true => simp [hb, hn]
          | false =>
              simp only [hb, hn]
              cases dec with
              | error e => rfl
              | ok apps =>
                  dsimp only
                  rw [foldl_scanStep, foldl_scanStep]
                  cases hL : (apps.filter (fun a => toString a.id == d2.id)).getLast? with
                  | none => rfl
                  | some e => rfl

/-- Witness for C9: same identifier, different name, description and priority
filters; the two outcomes are the same value. -/
theorem lookup_ignores_optional_fields_witness :
    appDataSourceRead cfgFix ⟨"nameA", "descA", "prioA", "5", ""⟩
        (fun _ => TransportResult.response 200 ""
          (Except.ok [⟨2, "d1", 5, "", false, "n1", "t1"⟩])) =
      appDataSourceRead cfgFix ⟨"nameB", "descB", "prioB", "5", ""⟩
        (fun _ => TransportResult.response 200 ""
          (Except.ok [⟨2, "d1", 5, "", false, "n1", "t1"⟩])) :=
  lookup_ignores_optional_fields cfgFix
    ⟨"nameA", "descA", "prioA", "5", ""⟩ ⟨"nameB", "descB", "prioB", "5", ""⟩
    (fun _ => TransportResult.response 200 ""
      (Except.ok [⟨2, "d1", 5, "", false, "n1", "t1"⟩])) rfl

/-- C10: whenever the lookup succeeds, the identifier written to state — the
matched entry's integer id re-stringified — equals the requested identifier
string. -/
theorem lookup_id_roundtrip (cfg : GotifyProviderModel)
    (d : ApplicationDataSourceModel)
    (t : HttpRequest → TransportResult (Except String (List RemoteApplication)))
    (st : ApplicationDataSourceModel)
    (h : (appDataSourceRead cfg d t).respState = some st) :
    st.id = d.id := by
  unfold appDataSourceRead at h
  cases hT : t (getAppsReq cfg) with
  | transportErr m => rw [hT] at h; simp at h
  | response s b dec =>
      rw [hT] at h
      cases hb : (s == 401) with
      | true => simp [hb] at h
      | false =>
          cases hn : (s != 200) with
          | true => simp [hb, hn] at h
          | false =>
              simp only [hb, hn] at h
              cases dec with
              | error e => simp at h
              | ok apps =>
                  dsimp only at h
                  rw [foldl_scanStep] at h
                  cases hL : (apps.filter (fun a => toString a.id == d.id)).getLast? with
                  | none => rw [hL] at h; simp at h
                  | some e =>
                      rw [hL] at h
                      dsimp only at h
                      simp only [Bool.not_true, if_false] at h
                      have hst : st = modelOfEntry e := by
                        simpa using h.symm
                      obtain ⟨hne, heq⟩ := List.mem_getLast?_eq_getLast
                        (show e ∈ (apps.filter (fun a => toString a.id == d.id)).getLast? from hL)
                      have hmem : e ∈ apps.filter (fun a => toString a.id == d.id) :=
                        heq ▸ List.getLast_mem hne
                      have hp : (toString e.id == d.id) = true :=
                        (List.mem_filter.mp hmem).2
                      rw [hst]
                      exact eq_of_beq hp

/-- Witness for C10: a successful lookup of identifier "5" writes id "5". -/
theorem lookup_id_roundtrip_witness :
    (modelOfEntry ⟨2, "d1", 5, "", false, "n1", "t1"⟩).id = "5" :=
  lookup_id_roundtrip cfgFix ⟨"", "", "", "5", ""⟩
    (fun _ => TransportResult.response 200 ""
      (Except.ok [⟨2, "d1", 5, "", false, "n1", "t1"⟩]))
    (modelOfEntry ⟨2, "d1", 5, "", false, "n1", "t1"⟩) rfl

end Gotify

namespace Gotify

/-- C7: every operation that actually receives a 401 response — the Configure
probe, Create, Update, Delete and the data-source lookup — fails with the
Authentication diagnostic "Not Allowed", whichever operation issued the call. -/
theorem status401_auth_error_all_ops
    (pdata cfg : GotifyProviderModel)
    (dC dU dD : ApplicationResourceModel) (dL : ApplicationDataSourceModel)
    (tP tU tD : HttpRequest → TransportResult Unit)
    (tC : HttpRequest → TransportResult (Except String CreateRespBody))
    (tL : HttpRequest → TransportResult (Except String (List RemoteApplication)))
    (nC nU : Int) (bP bC bU bD bL : String)
    (decC : Except String CreateRespBody)
    (decL : Except String (List RemoteApplication))
    (hpC : atoiE dC.priority = Except.ok nC)
    (hpU : atoiE dU.priority = Except.ok nU)
    (hP : tP (getAppsReq pdata) = TransportResult.response 401 bP ())
    (hC : tC (createReq cfg nC dC) = TransportResult.response 401 bC decC)
    (hU : tU (updateReq cfg nU dU) = TransportResult.response 401 bU ())
    (hD : tD (deleteReq cfg dD) = TransportResult.response 401 bD ())
    (hL : tL (getAppsReq cfg) = TransportResult.response 401 bL decL) :
    (providerConfigure pdata tP).diagnostics =
      [⟨"Not Allowed", "Bad token (?)"⟩] ∧
    (appCreate cfg dC tC).diagnostics =
      [⟨"Not Allowed", "Bad token (?) : " ++ bC⟩] ∧
    (appUpdate cfg dU tU).diagnostics =
      [⟨"Not Allowed", "Bad token (?) : " ++ bU⟩] ∧
    (appDelete cfg dD tD).diagnostics =
      [⟨"Not Allowed", "Bad token (?) : " ++ bD⟩] ∧
    (appDataSourceRead cfg dL tL).diagnostics =
      [⟨"Not Allowed", "Bad token (?) : " ++ bL⟩] := by
  refine ⟨?_, ?_, ?_, ?_, ?_⟩
  · unfold providerConfigure
    rw [hP]
    rfl
  · unfold appCreate
    rw [hpC]
    dsimp only
    rw [hC]
    rfl
  · unfold appUpdate
    rw [hpU]
    dsimp only
    rw [hU]
    rfl
  · unfold appDelete
    rw [hD]
    rfl
  · unfold appDataSourceRead
    rw [hL]
    rfl

/-- Witness for C7: all five operations against transports answering 401. -/
theorem status401_auth_error_all_ops_witness :
    (providerConfigure cfgFix
        (fun _ => TransportResult.response 401 "denied" ())).diagnostics =
      [⟨"Not Allowed", "Bad token (?)"⟩] ∧
    (appCreate cfgFix appFix
        (fun _ => TransportResult.response 401 "denied" (Except.error "na"))).diagnostics =
      [⟨"Not Allowed", "Bad token (?) : " ++ "denied"⟩] ∧
    (appUpdate cfgFix { appFix with id := "7" }
        (fun _ => TransportResult.response 401 "denied" ())).diagnostics =
      [⟨"Not Allowed", "Bad token (?) : " ++ "denied"⟩] ∧
    (appDelete cfgFix { appFix with id := "7" }
        (fun _ => TransportResult.response 401 "denied" ())).diagnostics =
      [⟨"Not Allowed", "Bad token (?) : " ++ "denied"⟩] ∧
    (appDataSourceRead cfgFix ⟨"", "", "", "5", ""⟩
        (fun _ => TransportResult.response 401 "denied"
          (Except.error "na"))).diagnostics =
      [⟨"Not Allowed", "Bad token (?) : " ++ "denied"⟩] :=
  status401_auth_error_all_ops cfgFix cfgFix
    appFix { appFix with id := "7" } { appFix with id := "7" } ⟨"", "", "", "5", ""⟩
    (fun _ => TransportResult.response 401 "denied" ())
    (fun _ => TransportResult.response 401 "denied" ())
    (fun _ => TransportResult.response 401 "denied" ())
    (fun _ => TransportResult.response 401 "denied" (Except.error "na"))
    (fun _ => TransportResult.response 401 "denied" (Except.error "na"))
    3 3 "denied" "denied" "denied" "denied" "denied"
    (Except.error "na") (Except.error "na")
    rfl rfl rfl rfl rfl rfl rfl

/-- Requests issued by Create all carry the configuration token in the
X-Gotify-Key header. -/
lemma appCreate_requests_key (cfg : GotifyProviderModel)
    (d : ApplicationResourceModel)
    (t : HttpRequest → TransportResult (Except String CreateRespBody)) :
    ((appCreate cfg d t).requests.all fun r => r.gotifyKey == cfg.token) = true := by
  unfold appCreate
  split
  · rfl
  · split
    · simp [createReq]
    · split
      · simp [createReq]
      · split
        · simp [createReq]
        · split
          · simp [createReq]
          · simp [createReq]

/-- Requests issued by Update all carry the configuration token in the
X-Gotify-Key header. -/
lemma appUpdate_requests_key (cfg : GotifyProviderModel)
    (d : ApplicationResourceModel)
    (t : HttpRequest → TransportResult Unit) :
    ((appUpdate cfg d t).requests.all fun r => r.gotifyKey == cfg.token) = true := by
  unfold appUpdate
  split
  · rfl
  · split
    · simp [updateReq]
    · split
      · simp [updateReq]
      · split
        · simp [updateReq]
        · simp [updateReq]

/-- Requests issued by Delete all carry the configuration token in the
X-Gotify-Key header. -/
lemma appDelete_requests_key (cfg : GotifyProviderModel)
    (d : ApplicationResourceModel)
    (t : HttpRequest → TransportResult Unit) :
    ((appDelete cfg d t).requests.all fun r => r.gotifyKey == cfg.token) = true := by
  unfold appDelete
  split
  · simp [deleteReq]
  · split
    · simp [deleteReq]
    · split
      · simp [deleteReq]
      · simp [deleteReq]

/-- A request list whose keys all equal the connection token contains no key
equal to a string different from the connection token. -/
lemma all_key_ne {l : List HttpRequest} {ct tok : String}
    (h : (l.all fun r => r.gotifyKey == ct) = true) (hne : ct ≠ tok) :
    (l.all fun r => r.gotifyKey != tok) = true := by
  rw [List.all_eq_true] at h ⊢
  intro r hr
  have hk : r.gotifyKey = ct := by
    have := h r hr
    simpa using this
  simp [hk, bne_iff_ne, hne]

/-- C8: the X-Gotify-Key header of every request issued by Create, Update and
Delete equals the connection settings' token stored at configuration time; in
particular, whenever that token differs from the operated record's own token
field, no issued request carries the record's token. -/
theorem auth_header_uses_config_token (cfg : GotifyProviderModel)
    (dC dU dD : ApplicationResourceModel)
    (tC : HttpRequest → TransportResult (Except String CreateRespBody))
    (tU tD : HttpRequest → TransportResult Unit) :
    ((appCreate cfg dC tC).requests.all fun r => r.gotifyKey == cfg.token) = true ∧
    ((appUpdate cfg dU tU).requests.all fun r => r.gotifyKey == cfg.token) = true ∧
    ((appDelete cfg dD tD).requests.all fun r => r.gotifyKey == cfg.token) = true ∧
    (cfg.token ≠ dC.token →
      ((appCreate cfg dC tC).requests.all fun r => r.gotifyKey != dC.token) = true) ∧
    (cfg.token ≠ dU.token →
      ((appUpdate cfg dU tU).requests.all fun r => r.gotifyKey != dU.token) = true) ∧
    (cfg.token ≠ dD.token →
      ((appDelete cfg dD tD).requests.all fun r => r.gotifyKey != dD.token) = true) :=
  ⟨appCreate_requests_key cfg dC tC,
   appUpdate_requests_key cfg dU tU,
   appDelete_requests_key cfg dD tD,
   fun hne => all_key_ne (appCreate_requests_key cfg dC tC) hne,
   fun hne => all_key_ne (appUpdate_requests_key cfg dU tU) hne,
   fun hne => all_key_ne (appDelete_requests_key cfg dD tD) hne⟩

/-- Witness for C8: concrete Create, Update and Delete invocations whose
record token differs from the connection token. -/
theorem auth_header_uses_config_token_witness :
    ((appCreate cfgFix appFix tCreateFix).requests.all
      fun r => r.gotifyKey == cfgFix.token) = true ∧
    ((appUpdate cfgFix { appFix with id := "7" }
        (fun _ => TransportResult.response 200 "" ())).requests.all
      fun r => r.gotifyKey == cfgFix.token) = true ∧
    ((appDelete cfgFix { appFix with id := "7" }
        (fun _ => TransportResult.response 200 "" ())).requests.all
      fun r => r.gotifyKey == cfgFix.token) = true ∧
    ((appCreate cfgFix appFix tCreateFix).requests.all
      fun r => r.gotifyKey != appFix.token) = true ∧
    ((appUpdate cfgFix { appFix with id := "7" }
        (fun _ => TransportResult.response 200 "" ())).requests.all
      fun r => r.gotifyKey != ({ appFix with id := "7" } :
        ApplicationResourceModel).token) = true ∧
    ((appDelete cfgFix { appFix with id := "7" }
        (fun _ => TransportResult.response 200 "" ())).requests.all
      fun r => r.gotifyKey != ({ appFix with id := "7" } :
        ApplicationResourceModel).token) = true := by
  have h := auth_header_uses_config_token cfgFix appFix
    { appFix with id := "7" } { appFix with id := "7" } tCreateFix
    (fun _ => TransportResult.response 200 "" ())
    (fun _ => TransportResult.response 200 "" ())
  exact ⟨h.1, h.2.1, h.2.2.1, h.2.2.2.1 (by decide), h.2.2.2.2.1 (by decide),
    h.2.2.2.2.2 (by decide)⟩

end Gotify
